import Mathlib

/-!
Verification of the BLE event-bridge adapter (`src/ble/adapter.c`).

The adapter frames GATT notification callbacks into length-prefixed binary
records and writes them to a pipe.  We embed the C code shallowly:

* bytes are `Nat` values (always `< 256` where they come from the code);
* buffers are `List Nat`, and the value returned by `on_notify_cb` is the
  list of bytes the C code passes to `write` (the empty list when the code
  returns before the `write` call);
* `uint16_t` arithmetic is `Nat` arithmetic taken `% 65536` exactly where
  the C code stores into a `uint16_t`;
* the process-wide `static int g_pipe_fd` is a one-field state record that
  is passed explicitly.

The target platform (Kindle, ARM) is little-endian, so the `memcpy` of a
`uint16_t` or of the connection-handle object produces little-endian
bytes; all multibyte fields below are serialized little-endian, which is
also the byte order fixed by the specification's concrete scenario.
-/

namespace BleAdapter

/-- A byte of the wire format, modelled as a natural number. -/
abbrev Byte := Nat

/-- Size of the on-stack frame buffer `uint8_t buf[512]` in `on_notify_cb`:
the maximum frame size. -/
def MAX_FRAME_SIZE : Nat := 512

/-- `sizeof(event_header_t)` for the packed header struct
`{ uint8_t type; uint16_t len; }`: 1 + 2 = 3 bytes, no padding. -/
def HEADER_SIZE : Nat := 3

/-- `sizeof(bleConnHandle)`.  Modelled from the spec: `bleConnHandle` is
declared in the external `kindlebt` headers, which are not part of this
repository; the specification's concrete scenario fixes the connection
handle as a 4-byte value. -/
def HANDLE_SIZE : Nat := 4

/-- Wire tag `EVENT_NOTIFY` from the `enum` in `adapter.c`. -/
def EVENT_NOTIFY : Nat := 1

/-- Wire tag `EVENT_CONNECT` from the `enum` in `adapter.c` (reserved). -/
def EVENT_CONNECT : Nat := 2

/-- Wire tag `EVENT_DISCONNECT` from the `enum` in `adapter.c` (reserved). -/
def EVENT_DISCONNECT : Nat := 3

/-- Little-endian byte pair of a 16-bit value, as produced by
`memcpy(ptr, &x, 2)` for a `uint16_t x` on the little-endian target. -/
def le16 (n : Nat) : List Byte := [n % 256, n / 256 % 256]

/-- Serialization of the packed `event_header_t`:
`memcpy(ptr, &header, sizeof(header))` emits the 1-byte `type` followed by
the 2-byte little-endian `len`, exactly 3 bytes. -/
def serialize_header (ty len : Nat) : List Byte := ty :: le16 len

/-- The `blobValue` member of `bleGattCharacteristicsValue_t`: a data
pointer (`none` models `NULL`; `some bs` models a pointer to the byte
sequence `bs`) and a size field.  The size is kept separate from the data
so that the `uint16_t` truncating read in the C code can be modelled
faithfully. -/
structure BlobValue where
  data : Option (List Byte)
  size : Nat
deriving Repr, DecidableEq

/-- The process-wide mutable state of the bridge: `static int g_pipe_fd`. -/
structure AdapterState where
  g_pipe_fd : Int
deriving Repr, DecidableEq

/-- The initial state: `static int g_pipe_fd = -1`. -/
def initState : AdapterState := ⟨-1⟩

/-- `adapter_set_pipe(int fd)`: overwrites the pipe descriptor. -/
def adapter_set_pipe (fd : Int) (_s : AdapterState) : AdapterState := ⟨fd⟩

/-- `uint16_t data_len = gatt_characteristics.blobValue.size;` —
the size field truncated to 16 bits. -/
def data_len (g : BlobValue) : Nat := g.size % 65536

/-- `uint16_t payload_len = sizeof(bleConnHandle) + 2 + data_len;` —
computed in 16-bit (mod 2^16) arithmetic. -/
def payload_len (g : BlobValue) : Nat :=
  (HANDLE_SIZE + 2 + data_len g) % 65536

/-- The frame body assembled by the four `memcpy` calls in `on_notify_cb`:
packed header, raw connection-handle bytes, 2-byte little-endian data
length, then `data_len` bytes of payload data. -/
def assemble_frame (conn_handle : List Byte) (g : BlobValue) : List Byte :=
  serialize_header EVENT_NOTIFY (payload_len g) ++ conn_handle ++
    le16 (data_len g) ++ (g.data.getD []).take (data_len g)

/-- The Frame Codec operation `encode_notify` of the spec, as the C code
realizes it inline in `on_notify_cb`: fail (`none`, the `FrameTooLarge`
outcome) when the capacity check fires, otherwise produce the frame. -/
def encode_notify (conn_handle : List Byte) (g : BlobValue) :
    Option (List Byte) :=
  if MAX_FRAME_SIZE < HEADER_SIZE + payload_len g then none
  else some (assemble_frame conn_handle g)

/-- `on_notify_cb(bleConnHandle conn_handle,
bleGattCharacteristicsValue_t gatt_characteristics)`.  The connection
handle is represented by its raw bytes (`memcpy(ptr, &conn_handle,
sizeof(bleConnHandle))` copies its in-memory representation).  The result
is the byte sequence passed to `write(g_pipe_fd, buf, ptr - buf)`, or `[]`
when the function returns before reaching the `write`. -/
def on_notify_cb (s : AdapterState) (conn_handle : List Byte)
    (g : BlobValue) : List Byte :=
  if s.g_pipe_fd < 0 then []
  else
    match g.data with
    | none => []
    | some d =>
      if MAX_FRAME_SIZE < HEADER_SIZE + payload_len g then []
      else serialize_header EVENT_NOTIFY (payload_len g) ++ conn_handle ++
        le16 (data_len g) ++ d.take (data_len g)

/-- The 2-byte little-endian length field of a frame: bytes at offsets 1
and 2, per the wire-format table. -/
def length_field (f : List Byte) : Nat :=
  f.tail.headD 0 + 256 * f.tail.tail.headD 0

/-- Decoder implementing the mirror of the wire-format table: read the
1-byte kind, the 2-byte little-endian length, `HANDLE_SIZE` handle bytes,
the 2-byte little-endian data length, then that many data bytes.  Returns
`(kind, declared_length, handle_bytes, data_length, data)`. -/
def decode_frame (f : List Byte) :
    Option (Nat × Nat × List Byte × Nat × List Byte) :=
  match f with
  | k :: l0 :: l1 :: body =>
    if HANDLE_SIZE + 2 ≤ body.length then
      let hb := body.take HANDLE_SIZE
      let rest := body.drop HANDLE_SIZE
      let dl := rest.headD 0 + 256 * rest.tail.headD 0
      let dat := rest.drop 2
      if dl ≤ dat.length then some (k, l0 + 256 * l1, hb, dl, dat.take dl)
      else none
    else none
  | _ => none

/-- The single notification handler this component installs; the C
function pointer `on_notify_cb`. -/
inductive NotifyHandler where
  | on_notify_cb
deriving Repr, DecidableEq

/-- The BLE stack's callback registration structure
`bleGattClientCallbacks_t`.  Its notify slot is modelled explicitly; all
the remaining slots (declared in the external `kindlebt` headers) are
abstracted into one field of an arbitrary type, so that "every other field
unchanged" is expressible. -/
structure bleGattClientCallbacks_t (α : Type) where
  notify_characteristics_cb : Option NotifyHandler
  other_callbacks : α
deriving Repr, DecidableEq

/-- `adapter_get_callbacks(bleGattClientCallbacks_t *callbacks)`: a no-op
on `NULL` (`none`), otherwise stores `on_notify_cb` into the
`notify_characteristics_cb` slot and touches nothing else. -/
def adapter_get_callbacks {α : Type}
    (cbs : Option (bleGattClientCallbacks_t α)) :
    Option (bleGattClientCallbacks_t α) :=
  match cbs with
  | none => none
  | some c => some ⟨some NotifyHandler.on_notify_cb, c.other_callbacks⟩

end BleAdapter

namespace BleAdapter

/-- Reading back a little-endian 16-bit pair recovers the value. -/
theorem le16_readback (n : Nat) (h : n < 65536) :
    (le16 n).headD 0 + 256 * (le16 n).tail.headD 0 = n := by
  show n % 256 + 256 * (n / 256 % 256) = n
  omega

/-- Case analysis on `on_notify_cb`: every invocation either writes nothing
or writes exactly the assembled frame, and in the latter case the capacity
check passed. -/
theorem on_notify_cases (s : AdapterState) (ch : List Byte) (g : BlobValue) :
    on_notify_cb s ch g = [] ∨
      (HEADER_SIZE + payload_len g ≤ MAX_FRAME_SIZE ∧
       on_notify_cb s ch g = assemble_frame ch g) := by
  by_cases hfd : s.g_pipe_fd < 0
  · exact Or.inl (by simp [on_notify_cb, hfd])
  · cases hd : g.data with
    | none => exact Or.inl (by simp [on_notify_cb, hfd, hd])
    | some d =>
      by_cases hc : MAX_FRAME_SIZE < HEADER_SIZE + payload_len g
      · exact Or.inl (by simp [on_notify_cb, hfd, hd, hc])
      · refine Or.inr ⟨Nat.not_lt.mp hc, ?_⟩
        simp [on_notify_cb, assemble_frame, hfd, hd, hc]

end BleAdapter

namespace BleAdapter

/-- C1: for every connection handle (4 raw bytes) and payload with
`3 + size_of(handle) + 2 + len(payload) ≤ 512`, encoding a notify event
succeeds and the frame's 2-byte header length field equals
`size_of(handle) + 2 + len(payload)` exactly; the declared length is the
exact byte count of everything following the 3-byte header. -/
theorem C1_encode_notify_length_field (conn_handle d : List Byte)
    (hch : conn_handle.length = HANDLE_SIZE)
    (h : HEADER_SIZE + HANDLE_SIZE + 2 + d.length ≤ MAX_FRAME_SIZE) :
    ∃ f, encode_notify conn_handle ⟨some d, d.length⟩ = some f ∧
      length_field f = HANDLE_SIZE + 2 + d.length ∧
      f.length = HEADER_SIZE + (HANDLE_SIZE + 2 + d.length) := by
  have h9 : d.length ≤ 503 := by
    unfold HEADER_SIZE HANDLE_SIZE MAX_FRAME_SIZE at h
    omega
  have hdl : data_len ⟨some d, d.length⟩ = d.length := by
    show d.length % 65536 = d.length
    omega
  have hpl : payload_len ⟨some d, d.length⟩ = HANDLE_SIZE + 2 + d.length := by
    unfold payload_len
    rw [hdl]
    exact Nat.mod_eq_of_lt (by unfold HANDLE_SIZE; omega)
  refine ⟨assemble_frame conn_handle ⟨some d, d.length⟩, ?_, ?_, ?_⟩
  · unfold encode_notify
    rw [if_neg (by rw [hpl]; unfold MAX_FRAME_SIZE HEADER_SIZE HANDLE_SIZE; omega)]
  · unfold assemble_frame serialize_header length_field le16
    rw [hpl]
    simp only [List.cons_append, List.tail_cons, List.headD_cons]
    unfold HANDLE_SIZE
    omega
  · unfold assemble_frame serialize_header le16
    rw [hpl, hdl]
    simp [List.length_append, hch]
    unfold HEADER_SIZE HANDLE_SIZE
    omega

/-- Witness for C1 at handle bytes 07 00 00 00 and payload AA BB CC. -/
theorem C1_encode_notify_length_field_witness :
    ([0x07, 0x00, 0x00, 0x00] : List Byte).length = HANDLE_SIZE ∧
    HEADER_SIZE + HANDLE_SIZE + 2 + ([0xAA, 0xBB, 0xCC] : List Byte).length
      ≤ MAX_FRAME_SIZE ∧
    ∃ f, encode_notify [0x07, 0x00, 0x00, 0x00]
        ⟨some [0xAA, 0xBB, 0xCC], ([0xAA, 0xBB, 0xCC] : List Byte).length⟩ =
        some f ∧
      length_field f = HANDLE_SIZE + 2 + ([0xAA, 0xBB, 0xCC] : List Byte).length ∧
      f.length = HEADER_SIZE +
        (HANDLE_SIZE + 2 + ([0xAA, 0xBB, 0xCC] : List Byte).length) :=
  ⟨by decide, by decide,
    C1_encode_notify_length_field [0x07, 0x00, 0x00, 0x00] [0xAA, 0xBB, 0xCC]
      (by decide) (by decide)⟩

/-- C2: whenever the computed total frame size — packed-header size plus
the 16-bit `payload_len` covering handle, data-length field and data —
exceeds the 512-byte capacity, `encode_notify` fails with the
FrameTooLarge outcome (`none`, no partial buffer) and `on_notify_cb`
writes zero bytes to the channel. -/
theorem C2_frame_too_large_no_write (s : AdapterState)
    (conn_handle : List Byte) (g : BlobValue)
    (h : MAX_FRAME_SIZE < HEADER_SIZE + payload_len g) :
    encode_notify conn_handle g = none ∧
    on_notify_cb s conn_handle g = [] := by
  refine ⟨by simp [encode_notify, h], ?_⟩
  by_cases hfd : s.g_pipe_fd < 0
  · simp [on_notify_cb, hfd]
  · cases hd : g.data with
    | none => simp [on_notify_cb, hfd, hd]
    | some d => simp [on_notify_cb, hfd, hd, h]

/-- Witness for C2, realizing the spec's concrete scenario: a 504-byte
payload makes the total frame size 3 + 510 = 513 = 512 + 1, and no write
happens. -/
theorem C2_frame_too_large_no_write_witness :
    MAX_FRAME_SIZE < HEADER_SIZE +
      payload_len ⟨some (List.replicate 504 0xAA), 504⟩ ∧
    (encode_notify [0x07, 0x00, 0x00, 0x00]
      ⟨some (List.replicate 504 0xAA), 504⟩ = none ∧
     on_notify_cb ⟨3⟩ [0x07, 0x00, 0x00, 0x00]
      ⟨some (List.replicate 504 0xAA), 504⟩ = []) :=
  ⟨by decide,
   C2_frame_too_large_no_write ⟨3⟩ [0x07, 0x00, 0x00, 0x00]
     ⟨some (List.replicate 504 0xAA), 504⟩ (by decide)⟩

/-- C3: with the channel set to any valid (non-negative) descriptor, the
connection handle 0x00000007 (raw little-endian bytes 07 00 00 00) and
payload AA BB CC produce exactly the 12-byte frame
01 09 00 07 00 00 00 03 00 AA BB CC. -/
theorem C3_concrete_frame (fd : Int) (h : 0 ≤ fd) :
    on_notify_cb ⟨fd⟩ [0x07, 0x00, 0x00, 0x00] ⟨some [0xAA, 0xBB, 0xCC], 3⟩ =
      [0x01, 0x09, 0x00, 0x07, 0x00, 0x00, 0x00, 0x03, 0x00,
       0xAA, 0xBB, 0xCC] := by
  unfold on_notify_cb
  rw [if_neg (Int.not_lt.mpr h)]
  decide

/-- Witness for C3 at descriptor 3. -/
theorem C3_concrete_frame_witness :
    (0 : Int) ≤ 3 ∧
    on_notify_cb ⟨3⟩ [0x07, 0x00, 0x00, 0x00] ⟨some [0xAA, 0xBB, 0xCC], 3⟩ =
      [0x01, 0x09, 0x00, 0x07, 0x00, 0x00, 0x00, 0x03, 0x00,
       0xAA, 0xBB, 0xCC] :=
  ⟨by decide, C3_concrete_frame 3 (by decide)⟩

end BleAdapter

namespace BleAdapter

/-- C4: decoding any frame produced by a successful encode, following the
wire-format table (1-byte kind, 2-byte length, `HANDLE_SIZE` handle
bytes, 2-byte data length, then that many data bytes), reconstructs the
original connection-handle bytes and the original payload bytes exactly. -/
theorem C4_decode_encode_roundtrip (conn_handle d f : List Byte)
    (hch : conn_handle.length = HANDLE_SIZE) (hlt : d.length < 65536)
    (henc : encode_notify conn_handle ⟨some d, d.length⟩ = some f) :
    ∃ k l, decode_frame f = some (k, l, conn_handle, d.length, d) := by
  have hdl : data_len ⟨some d, d.length⟩ = d.length := by
    show d.length % 65536 = d.length
    omega
  have hf : f = assemble_frame conn_handle ⟨some d, d.length⟩ := by
    unfold encode_notify at henc
    split at henc
    · exact absurd henc (by simp)
    · exact (Option.some_inj.mp henc).symm
  have hfrm : f = EVENT_NOTIFY :: (payload_len ⟨some d, d.length⟩ % 256) ::
      (payload_len ⟨some d, d.length⟩ / 256 % 256) ::
      (conn_handle ++ (d.length % 256) :: (d.length / 256 % 256) :: d) := by
    rw [hf]
    unfold assemble_frame serialize_header le16
    rw [hdl]
    simp
  have hdlval : d.length % 256 + 256 * (d.length / 256 % 256) = d.length := by
    omega
  have hblen : HANDLE_SIZE + 2 ≤
      (conn_handle ++ (d.length % 256) :: (d.length / 256 % 256) :: d).length := by
    rw [List.length_append, hch]
    simp only [List.length_cons]
    omega
  refine ⟨EVENT_NOTIFY, payload_len ⟨some d, d.length⟩ % 256 +
      256 * (payload_len ⟨some d, d.length⟩ / 256 % 256), ?_⟩
  rw [hfrm]
  unfold decode_frame
  dsimp only
  rw [if_pos hblen]
  rw [List.take_left' hch, List.drop_left' hch]
  have hdrop : ((d.length % 256) :: (d.length / 256 % 256) :: d).drop 2 = d :=
    rfl
  rw [hdrop]
  simp only [List.headD_cons, List.tail_cons]
  rw [hdlval, if_pos (Nat.le_refl d.length), List.take_length]

/-- Witness for C4 at handle bytes 07 00 00 00 and payload AA BB CC. -/
theorem C4_decode_encode_roundtrip_witness :
    ([0x07, 0x00, 0x00, 0x00] : List Byte).length = HANDLE_SIZE ∧
    ([0xAA, 0xBB, 0xCC] : List Byte).length < 65536 ∧
    encode_notify [0x07, 0x00, 0x00, 0x00]
      ⟨some [0xAA, 0xBB, 0xCC], ([0xAA, 0xBB, 0xCC] : List Byte).length⟩ =
      some [0x01, 0x09, 0x00, 0x07, 0x00, 0x00, 0x00, 0x03, 0x00,
            0xAA, 0xBB, 0xCC] ∧
    ∃ k l, decode_frame [0x01, 0x09, 0x00, 0x07, 0x00, 0x00, 0x00, 0x03,
        0x00, 0xAA, 0xBB, 0xCC] =
      some (k, l, [0x07, 0x00, 0x00, 0x00],
        ([0xAA, 0xBB, 0xCC] : List Byte).length, [0xAA, 0xBB, 0xCC]) :=
  ⟨by decide, by decide, by decide,
   C4_decode_encode_roundtrip [0x07, 0x00, 0x00, 0x00] [0xAA, 0xBB, 0xCC]
     [0x01, 0x09, 0x00, 0x07, 0x00, 0x00, 0x00, 0x03, 0x00, 0xAA, 0xBB, 0xCC]
     (by decide) (by decide) (by decide)⟩

/-- C5 counterexample: with the channel set (descriptor 3) and an empty
but non-null payload (`data` = `some []`, size 0), `on_notify_cb` writes
a 9-byte frame rather than zero bytes: the code only checks the data
pointer for NULL, never the size, so the claim fails for empty payloads. -/
theorem C5_noop_counterexample :
    on_notify_cb ⟨3⟩ [0x07, 0x00, 0x00, 0x00] ⟨some [], 0⟩ =
      [0x01, 0x06, 0x00, 0x07, 0x00, 0x00, 0x00, 0x00, 0x00] ∧
    on_notify_cb ⟨3⟩ [0x07, 0x00, 0x00, 0x00] ⟨some [], 0⟩ ≠ [] := by
  constructor <;> decide

/-- C5 (amended): for every invocation of `on_notify_cb` in which the
channel is unset/invalid (negative descriptor) or the payload data
pointer is null, zero bytes are written and the call returns immediately
without error. -/
theorem C5_noop_on_unset_or_null (s : AdapterState) (ch : List Byte)
    (g : BlobValue) (h : s.g_pipe_fd < 0 ∨ g.data = none) :
    on_notify_cb s ch g = [] := by
  cases h with
  | inl hfd => simp [on_notify_cb, hfd]
  | inr hd =>
    by_cases hfd : s.g_pipe_fd < 0
    · simp [on_notify_cb, hfd]
    · simp [on_notify_cb, hfd, hd]

/-- Witness for C5 (amended) at the initial, unset state. -/
theorem C5_noop_on_unset_or_null_witness :
    (initState.g_pipe_fd < 0 ∨ (⟨some [0x01], 1⟩ : BlobValue).data = none) ∧
    on_notify_cb initState [0x07, 0x00, 0x00, 0x00] ⟨some [0x01], 1⟩ = [] :=
  ⟨Or.inl (by decide),
   C5_noop_on_unset_or_null initState [0x07, 0x00, 0x00, 0x00]
     ⟨some [0x01], 1⟩ (Or.inl (by decide))⟩

/-- C6 (code bug): the capacity check does not bound the copies by the
512-byte buffer over the full 16-bit size range — at `blobValue.size` =
65530 the 16-bit `payload_len` wraps to 0, the check passes, and
3 + 4 + 2 + 65530 = 65539 bytes are assembled, overflowing `buf`. -/
theorem C6_capacity_check_wraparound :
    payload_len ⟨some (List.replicate 65530 0), 65530⟩ = 0 ∧
    ¬ (MAX_FRAME_SIZE < HEADER_SIZE +
        payload_len ⟨some (List.replicate 65530 0), 65530⟩) ∧
    (on_notify_cb ⟨3⟩ [0x07, 0x00, 0x00, 0x00]
        ⟨some (List.replicate 65530 0), 65530⟩).length = 65539 ∧
    MAX_FRAME_SIZE < 65539 := by
  refine ⟨by decide, by decide, ?_, by decide⟩
  have hon : on_notify_cb ⟨3⟩ [0x07, 0x00, 0x00, 0x00]
      ⟨some (List.replicate 65530 0), 65530⟩ =
      serialize_header EVENT_NOTIFY
        (payload_len ⟨some (List.replicate 65530 0), 65530⟩) ++
      [0x07, 0x00, 0x00, 0x00] ++
      le16 (data_len ⟨some (List.replicate 65530 0), 65530⟩) ++
      (List.replicate 65530 0).take
        (data_len ⟨some (List.replicate 65530 0), 65530⟩) := rfl
  rw [hon]
  simp only [serialize_header, le16, List.length_append, List.length_cons,
    List.length_nil, List.length_take, List.length_replicate]
  norm_num [data_len]

end BleAdapter

namespace BleAdapter

/-- C7: the packed event header always serializes to exactly 3 bytes
(1-byte kind tag immediately followed by the 2-byte length, no padding),
the wire tag values are fixed at NOTIFY = 1, CONNECT = 2, DISCONNECT = 3,
and every frame emitted by `on_notify_cb` carries kind tag 1 as its first
byte. -/
theorem C7_header_packing_and_tags :
    (∀ ty len, (serialize_header ty len).length = 3) ∧
    EVENT_NOTIFY = 1 ∧ EVENT_CONNECT = 2 ∧ EVENT_DISCONNECT = 3 ∧
    (∀ (s : AdapterState) (ch : List Byte) (g : BlobValue),
      on_notify_cb s ch g ≠ [] →
        (on_notify_cb s ch g).headD 0 = EVENT_NOTIFY) := by
  refine ⟨fun ty len => rfl, rfl, rfl, rfl, fun s ch g hne => ?_⟩
  rcases on_notify_cases s ch g with hnil | ⟨_, hfrm⟩
  · exact absurd hnil hne
  · rw [hfrm]
    unfold assemble_frame serialize_header
    simp

/-- Witness for C7's conditional part at a concrete emitting invocation. -/
theorem C7_header_packing_and_tags_witness :
    on_notify_cb ⟨3⟩ [0x07, 0x00, 0x00, 0x00] ⟨some [0xAA], 1⟩ ≠ [] ∧
    (on_notify_cb ⟨3⟩ [0x07, 0x00, 0x00, 0x00] ⟨some [0xAA], 1⟩).headD 0 =
      EVENT_NOTIFY :=
  ⟨by decide,
   C7_header_packing_and_tags.2.2.2.2 ⟨3⟩ [0x07, 0x00, 0x00, 0x00]
     ⟨some [0xAA], 1⟩ (by decide)⟩

/-- C8 (code bug): the claim that every invocation returns normally and
writes either one complete frame or nothing fails at the 16-bit wrap
inputs.  At `blobValue.size` = 65535 (channel set, data non-null) the
truncated `payload_len` is 5, so the capacity check passes and a
non-empty write of 65544 bytes occurs, yet the header's length field
declares only 5 while 65541 bytes follow the header: the emission is
neither nothing nor one complete frame under the format's invariant —
and in the C, the data `memcpy` at offset 9 overflows the 512-byte
`buf`, so the invocation does not return normally at all. -/
theorem C8_wrap_emission_not_complete_frame :
    on_notify_cb ⟨3⟩ [0x07, 0x00, 0x00, 0x00]
      ⟨some (List.replicate 65535 0xAB), 65535⟩ ≠ [] ∧
    (on_notify_cb ⟨3⟩ [0x07, 0x00, 0x00, 0x00]
      ⟨some (List.replicate 65535 0xAB), 65535⟩).length = 65544 ∧
    length_field (on_notify_cb ⟨3⟩ [0x07, 0x00, 0x00, 0x00]
      ⟨some (List.replicate 65535 0xAB), 65535⟩) = 5 ∧
    ((on_notify_cb ⟨3⟩ [0x07, 0x00, 0x00, 0x00]
      ⟨some (List.replicate 65535 0xAB), 65535⟩).drop HEADER_SIZE).length =
      65541 := by
  have hon : on_notify_cb ⟨3⟩ [0x07, 0x00, 0x00, 0x00]
      ⟨some (List.replicate 65535 0xAB), 65535⟩ =
      serialize_header EVENT_NOTIFY
        (payload_len ⟨some (List.replicate 65535 0xAB), 65535⟩) ++
      [0x07, 0x00, 0x00, 0x00] ++
      le16 (data_len ⟨some (List.replicate 65535 0xAB), 65535⟩) ++
      (List.replicate 65535 0xAB).take
        (data_len ⟨some (List.replicate 65535 0xAB), 65535⟩) := rfl
  refine ⟨?_, ?_, ?_, ?_⟩
  · rw [hon]
    exact List.cons_ne_nil _ _
  · rw [hon]
    simp only [serialize_header, le16, List.length_append, List.length_cons,
      List.length_nil, List.length_take, List.length_replicate]
    norm_num [data_len]
  · rw [hon]
    unfold length_field serialize_header le16
    simp only [List.cons_append, List.nil_append, List.tail_cons,
      List.headD_cons]
    norm_num [payload_len, data_len, HANDLE_SIZE]
  · rw [hon, List.length_drop]
    simp only [serialize_header, le16, List.length_append, List.length_cons,
      List.length_nil, List.length_take, List.length_replicate]
    norm_num [data_len, HEADER_SIZE]

/-- C9: `adapter_get_callbacks` installs `on_notify_cb` into exactly the
`notify_characteristics_cb` slot of a non-null callbacks structure,
leaving every other field unchanged, and is a complete no-op on a null
pointer. -/
theorem C9_get_callbacks_sets_only_notify {α : Type} :
    (∀ c : bleGattClientCallbacks_t α,
      adapter_get_callbacks (some c) =
        some ⟨some NotifyHandler.on_notify_cb, c.other_callbacks⟩) ∧
    adapter_get_callbacks (none : Option (bleGattClientCallbacks_t α)) =
      none := by
  exact ⟨fun c => rfl, rfl⟩

/-- C10: `adapter_set_pipe` is idempotent — setting the same valid
descriptor twice leaves the bridge in the same state as setting it once,
so every subsequent `on_notify_cb` invocation behaves identically. -/
theorem C10_set_pipe_idempotent (s : AdapterState) (fd : Int)
    (h : 0 ≤ fd) :
    adapter_set_pipe fd (adapter_set_pipe fd s) = adapter_set_pipe fd s ∧
    ∀ (ch : List Byte) (g : BlobValue),
      on_notify_cb (adapter_set_pipe fd (adapter_set_pipe fd s)) ch g =
        on_notify_cb (adapter_set_pipe fd s) ch g :=
  ⟨rfl, fun ch g => rfl⟩

/-- Witness for C10 at descriptor 3 from the initial state. -/
theorem C10_set_pipe_idempotent_witness :
    (0 : Int) ≤ 3 ∧
    (adapter_set_pipe 3 (adapter_set_pipe 3 initState) =
       adapter_set_pipe 3 initState ∧
     on_notify_cb (adapter_set_pipe 3 (adapter_set_pipe 3 initState))
         [0x07, 0x00, 0x00, 0x00] ⟨some [0xAA], 1⟩ =
       on_notify_cb (adapter_set_pipe 3 initState)
         [0x07, 0x00, 0x00, 0x00] ⟨some [0xAA], 1⟩) :=
  ⟨by decide,
   (C10_set_pipe_idempotent initState 3 (by decide)).1,
   (C10_set_pipe_idempotent initState 3 (by decide)).2
     [0x07, 0x00, 0x00, 0x00] ⟨some [0xAA], 1⟩⟩

end BleAdapter
